import Mathlib

set_option maxHeartbeats 1000000

/-!
Shallow embedding of the GlobaLeaks authentication subsystem
(backend/globaleaks/handlers/authentication.py) and proofs about it.

The process-global counter `Settings.failed_login_attempts` is threaded
explicitly through the functions that read or write it.  The password and
receipt hash primitives (globaleaks.utils.security) and the random number
generator (SystemRandom) are external collaborators and appear as function
parameters.
-/

/-- A registered user row (globaleaks.models.User), restricted to the columns
read by the login handlers. -/
structure User where
  id : Nat
  tid : Nat
  username : String
  password : String
  salt : String
  role : String
  state : String
  auth_token : String
  password_change_needed : Bool
  last_login : Nat
  deriving DecidableEq

/-- An internal tip row (globaleaks.models.InternalTip), restricted to the
columns read by the whistleblower login. -/
structure InternalTip where
  id : Nat
  tid : Nat
  receipt_hash : String
  last_access : Nat
  deriving DecidableEq

/-- An already-parsed IPv4 network range (ipaddress.ip_network): a 32-bit base
address together with the number of leading mask bits. -/
structure IPNetwork where
  base : Nat
  maskBits : Nat
  deriving DecidableEq

/-- Membership of an address in a network (`client_ip_obj in ip_network`): the
two addresses agree on the leading `maskBits` bits. -/
def ipInNetwork (ip : Nat) (nw : IPNetwork) : Bool :=
  ip / 2 ^ (32 - nw.maskBits) == nw.base / 2 ^ (32 - nw.maskBits)

/-- ipaddress.IPv4Address.is_loopback: the address lies in 127.0.0.0/8. -/
def is_loopback (ip : Nat) : Bool :=
  ip / 2 ^ 24 == 127

/-- The per-tenant configuration read from `State.tenant_cache[tid]` by the
login handlers.  The allow-list is kept in already-parsed form; the source
parses the configured CSV into network objects at login time with
`parse_csv_ip_ranges_to_ip_networks`. -/
structure TenantCache where
  receipt_salt : String
  https_admin : Bool
  https_custodian : Bool
  https_receiver : Bool
  https_whistleblower : Bool
  ip_filter_authenticated_enable : Bool
  ip_filter_authenticated : List IPNetwork
  deriving DecidableEq

/-- The role-keyed flag lookup `State.tenant_cache[tid]['https_' + role]`. -/
def tenantHttps (tc : TenantCache) (role : String) : Bool :=
  if role = "admin" then tc.https_admin
  else if role = "custodian" then tc.https_custodian
  else if role = "receiver" then tc.https_receiver
  else tc.https_whistleblower

/-- The error classes raised by the login paths (globaleaks.rest.errors). -/
inductive LoginError where
  | InvalidAuthentication
  | TorNetworkRequired
  | AccessLocationInvalid
  deriving DecidableEq

/-- Result of the staff `login` transaction: either the returned tuple
`(user.id, user.state, user.role, user.password_change_needed)`, a raised
login error, or an unhandled database exception. -/
inductive LoginOutcome where
  | success (user_id : Nat) (state : String) (role : String) (pcn : Bool)
  | failure (e : LoginError)
  | dbError
  deriving DecidableEq

def LoginOutcome.isSuccess : LoginOutcome → Bool
  | .success _ _ _ _ => true
  | _ => false

/-- SQLAlchemy `Query.one_or_none()`: `some none` when no row matches,
`some (some a)` for exactly one row, and `none` when several rows match
(MultipleResultsFound propagates as an unhandled exception). -/
def oneOrNone {α : Type} : List α → Option (Option α)
  | [] => some none
  | [a] => some (some a)
  | _ :: _ :: _ => none

/-- The token-branch filter of `login` (authentication.py lines 86-88):
`User.auth_token == token, User.state != 'disabled', User.tid == tid`. -/
def tokenMatch (tid : Nat) (token : String) (u : User) : Bool :=
  u.auth_token == token && u.state != "disabled" && u.tid == tid

/-- The username-branch filter of `login` (lines 90-93): same username,
not disabled, and either an admin registered under tenant 1 or the target
tenant, or a non-admin registered under the target tenant. -/
def userMatch (tid : Nat) (username : String) (u : User) : Bool :=
  u.username == username && u.state != "disabled" &&
    ((u.role == "admin" && (u.tid == 1 || u.tid == tid)) ||
     (u.role != "admin" && u.tid == tid))

/-- The candidate loop of `login` (lines 94-96): `user = None`, then for each
candidate `u`, if `check_password(password, u.salt, u.password)` then
`user = u`; there is no break.  The second component counts the
`check_password` invocations, one per iteration. -/
def loopPickC (checkpw : String → String → String → Bool) (password : String)
    (users : List User) : Option User × Nat :=
  users.foldl
    (fun acc u => (if checkpw password u.salt u.password then some u else acc.1, acc.2 + 1))
    (none, 0)

/-- The principal-resolution step of `login` (lines 85-96): the token query
with `one_or_none` when a token is supplied (Python truthiness: non-empty),
otherwise the username query followed by the candidate loop. -/
def resolveUser (checkpw : String → String → String → Bool) (db : List User)
    (tid : Nat) (username password token : String) : Option (Option User) :=
  if token = "" then
    some (loopPickC checkpw password (db.filter (userMatch tid username))).1
  else
    oneOrNone (db.filter (tokenMatch tid token))

/-- The authenticated-IP check of `login` (lines 118-125): `success = False`,
set on a loopback client address, then set by any configured range containing
the address. -/
def ipFilterPass (networks : List IPNetwork) (client_ip : Nat) : Bool :=
  networks.foldl (fun s nw => if ipInNetwork client_ip nw then true else s)
    (is_loopback client_ip)

/-- What the staff `login` transaction leaves behind: the outcome, the
process-global failure counter, the user table (`user.last_login` may have
been updated) and the number of `check_password` invocations made. -/
structure StaffLoginResult where
  outcome : LoginOutcome
  failed_login_attempts : Nat
  db : List User
  checkpwCalls : Nat
  deriving DecidableEq

/-- The staff `login` transaction (lines 78-134).  `fla` is the value of
`Settings.failed_login_attempts` on entry and `now` the value of
`datetime_now()`. -/
def login (checkpw : String → String → String → Bool) (db : List User)
    (tc : TenantCache) (now : Nat) (fla : Nat) (tid : Nat)
    (username password : String) (client_using_tor : Bool) (client_ip : Nat)
    (token : String) : StaffLoginResult :=
  let calls := if token = "" then
    (loopPickC checkpw password (db.filter (userMatch tid username))).2 else 0
  match resolveUser checkpw db tid username password token with
  | none => ⟨.dbError, fla, db, calls⟩
  | some none => ⟨.failure .InvalidAuthentication, fla + 1, db, calls⟩
  | some (some user) =>
    if !client_using_tor && !tenantHttps tc user.role then
      ⟨.failure .TorNetworkRequired, fla, db, calls⟩
    else if tc.ip_filter_authenticated_enable &&
        !ipFilterPass tc.ip_filter_authenticated client_ip then
      ⟨.failure .AccessLocationInvalid, fla, db, calls⟩
    else
      ⟨.success user.id user.state user.role user.password_change_needed, fla,
        db.map (fun v => if v.id == user.id then { v with last_login := now } else v),
        calls⟩

/-- Result of the whistleblower login transaction. -/
inductive WBOutcome where
  | success (tip_id : Nat)
  | failure (e : LoginError)
  | dbError
  deriving DecidableEq

/-- What `login_whistleblower` leaves behind: outcome, failure counter, and
the tip table (`wbtip.last_access` may have been updated). -/
structure WBLoginResult where
  outcome : WBOutcome
  failed_login_attempts : Nat
  tips : List InternalTip
  deriving DecidableEq

/-- `db_get_wbtip_by_receipt` (lines 49-53): hash the receipt with the
tenant's receipt salt and look the tip up by that hash within the tenant. -/
def db_get_wbtip_by_receipt (hashpw : String → String → String)
    (tips : List InternalTip) (tc : TenantCache) (tid : Nat) (receipt : String) :
    Option (Option InternalTip) :=
  let hashed_receipt := hashpw receipt tc.receipt_salt
  oneOrNone (tips.filter (fun t => t.receipt_hash == hashed_receipt && t.tid == tid))

/-- The whistleblower login transaction (lines 56-75). -/
def login_whistleblower (hashpw : String → String → String)
    (tips : List InternalTip) (tc : TenantCache) (now fla tid : Nat)
    (receipt : String) (client_using_tor : Bool) : WBLoginResult :=
  match db_get_wbtip_by_receipt hashpw tips tc tid receipt with
  | none => ⟨.dbError, fla, tips⟩
  | some none => ⟨.failure .InvalidAuthentication, fla + 1, tips⟩
  | some (some wbtip) =>
    if !client_using_tor && !tc.https_whistleblower then
      ⟨.failure .TorNetworkRequired, fla, tips⟩
    else
      ⟨.success wbtip.id, fla,
        tips.map (fun t => if t.id == wbtip.id then { t with last_access := now } else t)⟩

/-- `random_login_delay` (lines 20-46) with the `SystemRandom().randint` draw
abstracted as `rand`. -/
def random_login_delay (rand : Nat → Nat → Nat) (failed_attempts : Nat) : Nat :=
  if failed_attempts ≥ 5 then
    let n := failed_attempts * failed_attempts
    let min_sleep := if failed_attempts < 42 then failed_attempts else 42
    let max_sleep := if n < 42 then n else 42
    rand min_sleep max_sleep
  else
    0

/-- Modelled from the spec: `new_session` and the session object live in
handlers/base.py, which is not among the sources; per §4.4 `create` stores
the given tenant, user id, role and status under a fresh identifier together
with an expiration time. -/
structure Session where
  id : Nat
  tid : Nat
  user_id : Nat
  user_role : String
  user_status : String
  expiration : Nat
  deriving DecidableEq

/-- Modelled from the spec: §4.4 `create(tenant, user_id, role, status)`. -/
def new_session (fresh_id expiration tid user_id : Nat) (role status : String) :
    Session :=
  ⟨fresh_id, tid, user_id, role, status, expiration⟩

/-- The response dictionary of `AuthenticationHandler.post` (lines 161-168),
also the shape returned by `SessionHandler.get`. -/
structure AuthResponse where
  session_id : Nat
  role : String
  user_id : Nat
  session_expiration : Nat
  status : String
  password_change_needed : Bool
  deriving DecidableEq

/-- What a staff login request leaves behind at the boundary: the throttle
delay slept, the response (none when an error was raised), and the failure
counter. -/
structure HandlerResult where
  delay : Nat
  response : Option AuthResponse
  failed_login_attempts : Nat
  deriving DecidableEq

/-- `AuthenticationHandler.post` (lines 144-168): compute the throttle delay
from the current failure counter, sleep it, run `login`, then build a session
and the response. -/
def AuthenticationHandler_post (checkpw : String → String → String → Bool)
    (rand : Nat → Nat → Nat) (db : List User) (tc : TenantCache)
    (now fla tid : Nat) (username password token : String)
    (client_using_tor : Bool) (client_ip : Nat) (fresh_id expiration : Nat) :
    HandlerResult :=
  let delay := random_login_delay rand fla
  let r := login checkpw db tc now fla tid username password client_using_tor
    client_ip token
  match r.outcome with
  | .success user_id status role pcn =>
    let s := new_session fresh_id expiration tid user_id role status
    ⟨delay, some ⟨s.id, s.user_role, s.user_id, s.expiration, s.user_status, pcn⟩,
      r.failed_login_attempts⟩
  | _ => ⟨delay, none, r.failed_login_attempts⟩

/-- The response dictionary of `ReceiptAuthHandler.post` (lines 191-196):
no status and no password_change_needed field. -/
structure ReceiptAuthResponse where
  session_id : Nat
  role : String
  user_id : Nat
  session_expiration : Nat
  deriving DecidableEq

/-- What a whistleblower login request leaves behind at the boundary. -/
structure ReceiptHandlerResult where
  delay : Nat
  response : Option ReceiptAuthResponse
  failed_login_attempts : Nat
  tips : List InternalTip
  deriving DecidableEq

/-- `ReceiptAuthHandler.post` (lines 177-196): compute and sleep the throttle
delay, run `login_whistleblower`, then build a session with role
'whistleblower' and status 'Enabled'. -/
def ReceiptAuthHandler_post (hashpw : String → String → String)
    (rand : Nat → Nat → Nat) (tips : List InternalTip) (tc : TenantCache)
    (now fla tid : Nat) (receipt : String) (client_using_tor : Bool)
    (fresh_id expiration : Nat) : ReceiptHandlerResult :=
  let delay := random_login_delay rand fla
  let r := login_whistleblower hashpw tips tc now fla tid receipt client_using_tor
  match r.outcome with
  | .success user_id =>
    let s := new_session fresh_id expiration tid user_id "whistleblower" "Enabled"
    ⟨delay, some ⟨s.id, s.user_role, s.user_id, s.expiration⟩,
      r.failed_login_attempts, r.tips⟩
  | _ => ⟨delay, none, r.failed_login_attempts, r.tips⟩

/-- `SessionHandler.get` (lines 205-216): the refresh response is rebuilt from
the stored session, with `password_change_needed` hard-coded to `False`. -/
def SessionHandler_get (current_user : Session) : AuthResponse :=
  ⟨current_user.id, current_user.user_role, current_user.user_id,
    current_user.expiration, current_user.user_status, false⟩

/-! ### Helper lemmas -/

/-- Unfolding of `random_login_delay` with its lets reduced. -/
theorem random_login_delay_eq (rand : Nat → Nat → Nat) (x : Nat) :
    random_login_delay rand x =
      if x ≥ 5 then
        rand (if x < 42 then x else 42) (if x * x < 42 then x * x else 42)
      else 0 := rfl

/-- `Option.or` pushed through the last element of a cons. -/
theorem getLast?_or_cons (u : User) (l : List User) (a : Option User) :
    ((u :: l).getLast?).or a = (l.getLast?).or (some u) := by
  induction l generalizing u a with
  | nil => rfl
  | cons v vs ih => rw [List.getLast?_cons_cons, ih, ih]

/-- The candidate loop of `login`: the accumulator ends at the last matching
candidate and the counter at one verifier call per candidate. -/
theorem foldl_pick_eq (p : User → Bool) (users : List User)
    (a : Option User) (n : Nat) :
    users.foldl (fun acc u => (if p u then some u else acc.1, acc.2 + 1)) (a, n) =
      (((users.filter p).getLast?).or a, n + users.length) := by
  induction users generalizing a n with
  | nil => simp
  | cons u us ih =>
    simp only [List.foldl_cons, List.filter_cons, List.length_cons]
    by_cases h : p u
    · simp only [h, if_true, ih, getLast?_or_cons]
      refine congrArg _ ?_
      omega
    · simp only [h, if_false, ih, Bool.false_eq_true]
      refine congrArg _ ?_
      omega

/-- `loopPickC` rewritten through `foldl_pick_eq`. -/
theorem loopPickC_eq (checkpw : String → String → String → Bool)
    (password : String) (users : List User) :
    loopPickC checkpw password users =
      ((users.filter (fun u => checkpw password u.salt u.password)).getLast?,
        users.length) := by
  unfold loopPickC
  rw [foldl_pick_eq]
  simp

/-- The authenticated-IP check passes exactly for loopback addresses and
addresses inside some configured range. -/
theorem ipFilterPass_iff (networks : List IPNetwork) (ip : Nat) :
    ipFilterPass networks ip =
      (is_loopback ip || networks.any (fun nw => ipInNetwork ip nw)) := by
  unfold ipFilterPass
  generalize is_loopback ip = b
  induction networks generalizing b with
  | nil => simp
  | cons nw nws ih =>
    simp only [List.foldl_cons, List.any_cons]
    rw [ih]
    by_cases h : ipInNetwork ip nw
    · simp [h]
    · simp [h]

/-! ### Claims -/

/-- C1: for every failure count x, the throttle delay is 0 when x < 5; when
5 ≤ x < 42 it lies in the closed interval [min(x,42), min(x*x,42)]; and when
x ≥ 42 it is exactly 42 — for any random draw that respects its bounds. -/
theorem random_login_delay_spec (rand : Nat → Nat → Nat)
    (hrand : ∀ a b, a ≤ b → a ≤ rand a b ∧ rand a b ≤ b) (x : Nat) :
    (x < 5 → random_login_delay rand x = 0) ∧
    (5 ≤ x → x < 42 →
      min x 42 ≤ random_login_delay rand x ∧
      random_login_delay rand x ≤ min (x * x) 42) ∧
    (42 ≤ x → random_login_delay rand x = 42) := by
  refine ⟨fun h => ?_, fun h5 h42 => ?_, fun h42 => ?_⟩
  · rw [random_login_delay_eq, if_neg (by omega)]
  · have hxx : x ≤ x * x := Nat.le_mul_of_pos_left x (by omega)
    rw [random_login_delay_eq, if_pos (by omega), if_pos h42]
    by_cases hn : x * x < 42
    · rw [if_pos hn, Nat.min_eq_left (by omega), Nat.min_eq_left (by omega)]
      exact hrand x (x * x) hxx
    · rw [if_neg hn, Nat.min_eq_left (by omega), Nat.min_eq_right (by omega)]
      exact hrand x 42 (by omega)
  · have hxx : x ≤ x * x := Nat.le_mul_of_pos_left x (by omega)
    rw [random_login_delay_eq, if_pos (by omega), if_neg (by omega),
      if_neg (by omega)]
    have h := hrand 42 42 (Nat.le_refl 42)
    omega

/-- Witness for C1 at x = 3, 5 and 50 with the draw pinned to its lower
bound. -/
theorem random_login_delay_spec_witness :
    random_login_delay (fun a _ => a) 3 = 0 ∧
    (min 5 42 ≤ random_login_delay (fun a _ => a) 5 ∧
      random_login_delay (fun a _ => a) 5 ≤ min (5 * 5) 42) ∧
    random_login_delay (fun a _ => a) 50 = 42 :=
  ⟨(random_login_delay_spec (fun a _ => a)
      (fun a b h => ⟨Nat.le_refl a, h⟩) 3).1 (by omega),
    (random_login_delay_spec (fun a _ => a)
      (fun a b h => ⟨Nat.le_refl a, h⟩) 5).2.1 (by omega) (by omega),
    (random_login_delay_spec (fun a _ => a)
      (fun a b h => ⟨Nat.le_refl a, h⟩) 50).2.2 (by omega)⟩

/-- C3: the process-wide failed-login counter is incremented exactly when the
credential check fails (the outcome is InvalidAuthentication), for both the
staff and the whistleblower login; it is unchanged on success and on the
TorNetworkRequired and AccessLocationInvalid rejections that occur after the
credentials matched. -/
theorem failed_counter_increment_iff
    (checkpw : String → String → String → Bool)
    (hashpw : String → String → String)
    (db : List User) (tips : List InternalTip) (tc : TenantCache)
    (now fla tid : Nat) (username password token receipt : String)
    (client_using_tor : Bool) (client_ip : Nat) :
    (login checkpw db tc now fla tid username password client_using_tor
        client_ip token).failed_login_attempts =
      (if (login checkpw db tc now fla tid username password client_using_tor
            client_ip token).outcome = .failure .InvalidAuthentication
        then fla + 1 else fla) ∧
    (login_whistleblower hashpw tips tc now fla tid receipt
        client_using_tor).failed_login_attempts =
      (if (login_whistleblower hashpw tips tc now fla tid receipt
            client_using_tor).outcome = .failure .InvalidAuthentication
        then fla + 1 else fla) := by
  constructor
  · rcases hres : resolveUser checkpw db tid username password token
      with _ | (_ | user)
    · simp [login, hres]
    · simp [login, hres]
    · simp only [login, hres]
      split
      · simp
      · split
        · simp
        · simp
  · rcases hres : db_get_wbtip_by_receipt hashpw tips tc tid receipt
      with _ | (_ | wbtip)
    · simp [login_whistleblower, hres]
    · simp [login_whistleblower, hres]
    · simp only [login_whistleblower, hres]
      split
      · simp
      · simp

/-! ### Concrete fixtures used by counterexamples and witnesses -/

/-- A tenant configuration with every web-access flag false and IP filtering
disabled. -/
def tcAllOff : TenantCache := ⟨"S", false, false, false, false, false, []⟩

/-- An enabled admin of the root tenant. -/
def uAdmin : User := ⟨1, 1, "alice", "H", "SALT", "admin", "enabled", "", false, 0⟩

/-- An enabled receiver of tenant 4 carrying the auth token "T". -/
def uTok : User := ⟨3, 4, "bob", "H", "SALT", "receiver", "enabled", "T", true, 0⟩

/-- C2 counterexample: over the clear network with every web-access flag
false, a staff login with invalid credentials (empty user table) fails with
InvalidAuthentication, not TorNetworkRequired: the credential check runs
before the network-origin check. -/
theorem clearweb_invalid_credentials_counterexample :
    (login (fun _ _ _ => false) [] tcAllOff 0 0 7 "alice" "pw" false 0
        "").outcome = .failure .InvalidAuthentication ∧
    (login (fun _ _ _ => false) [] tcAllOff 0 0 7 "alice" "pw" false 0
        "").outcome ≠ .failure .TorNetworkRequired := by
  exact ⟨rfl, by decide⟩

/-- C2 (amended): over the clear network with the relevant web-access flag
false, a login whose credentials resolve to a principal fails with
TorNetworkRequired, while one whose credentials match nothing fails with
InvalidAuthentication: the credential check precedes the network check. -/
theorem tor_required_after_credentials
    (checkpw : String → String → String → Bool)
    (hashpw : String → String → String)
    (db : List User) (tips : List InternalTip) (tc : TenantCache)
    (now fla tid : Nat) (username password token receipt : String)
    (client_ip : Nat) :
    (∀ u, resolveUser checkpw db tid username password token = some (some u) →
      tenantHttps tc u.role = false →
      (login checkpw db tc now fla tid username password false client_ip
          token).outcome = .failure .TorNetworkRequired) ∧
    (resolveUser checkpw db tid username password token = some none →
      (login checkpw db tc now fla tid username password false client_ip
          token).outcome = .failure .InvalidAuthentication) ∧
    (∀ t, db_get_wbtip_by_receipt hashpw tips tc tid receipt = some (some t) →
      tc.https_whistleblower = false →
      (login_whistleblower hashpw tips tc now fla tid receipt false).outcome =
        .failure .TorNetworkRequired) ∧
    (db_get_wbtip_by_receipt hashpw tips tc tid receipt = some none →
      (login_whistleblower hashpw tips tc now fla tid receipt false).outcome =
        .failure .InvalidAuthentication) := by
  refine ⟨fun u hres hflag => ?_, fun hres => ?_, fun t hres hflag => ?_,
    fun hres => ?_⟩
  · simp [login, hres, hflag]
  · simp [login, hres]
  · simp [login_whistleblower, hres, hflag]
  · simp [login_whistleblower, hres]

/-- Witness for the amended C2: a clear-network admin login with matching
credentials is rejected with TorNetworkRequired, while an unknown receipt is
rejected with InvalidAuthentication. -/
theorem tor_required_after_credentials_witness :
    (login (fun _ _ _ => true) [uAdmin] tcAllOff 0 0 1 "alice" "pw" false 0
        "").outcome = .failure .TorNetworkRequired ∧
    (login_whistleblower (fun r s => r ++ s) [] tcAllOff 0 0 1 "R1"
        false).outcome = .failure .InvalidAuthentication := by
  have h := tor_required_after_credentials (fun _ _ _ => true)
    (fun r s => r ++ s) [uAdmin] [] tcAllOff 0 0 1 "alice" "pw" "" "R1" 0
  exact ⟨h.1 uAdmin (by decide) (by decide), h.2.2.2 (by decide)⟩

/-- C4: staff principal resolution: with a non-empty token the password is
never consulted and (when tokens are unique and the network policy permits)
authentication succeeds exactly when some non-disabled user of the target
tenant carries that token; with no token, if no candidate's password
verifies the attempt fails with InvalidAuthentication. -/
theorem staff_login_candidate_resolution
    (checkpw : String → String → String → Bool) (db : List User)
    (tc : TenantCache) (now fla tid : Nat) (username : String)
    (client_using_tor : Bool) (client_ip : Nat) :
    (∀ token p1 p2, token ≠ "" →
      login checkpw db tc now fla tid username p1 client_using_tor client_ip
          token =
        login checkpw db tc now fla tid username p2 client_using_tor client_ip
          token) ∧
    (∀ token password, token ≠ "" →
      (db.filter (tokenMatch tid token)).length ≤ 1 →
      client_using_tor = true →
      tc.ip_filter_authenticated_enable = false →
      ((login checkpw db tc now fla tid username password client_using_tor
          client_ip token).outcome.isSuccess = true ↔
        ∃ u ∈ db, tokenMatch tid token u = true)) ∧
    (∀ password,
      (∀ u ∈ db.filter (userMatch tid username),
        checkpw password u.salt u.password = false) →
      (login checkpw db tc now fla tid username password client_using_tor
          client_ip "").outcome = .failure .InvalidAuthentication) := by
  refine ⟨fun token p1 p2 htok => ?_,
    fun token password htok huniq htor hip => ?_, fun password hall => ?_⟩
  · simp [login, resolveUser, htok]
  · rcases hfil : db.filter (tokenMatch tid token) with _ | ⟨u, rest⟩
    · have hout : (login checkpw db tc now fla tid username password
          client_using_tor client_ip token).outcome =
          .failure .InvalidAuthentication := by
        simp [login, resolveUser, htok, hfil, oneOrNone]
      rw [hout]
      simp only [LoginOutcome.isSuccess]
      constructor
      · intro hcontra
        exact absurd hcontra (by decide)
      · rintro ⟨u, hu, hm⟩
        exact absurd hm (List.filter_eq_nil_iff.mp hfil u hu)
    · rw [hfil] at huniq
      have hrest : rest = [] := by
        cases rest with
        | nil => rfl
        | cons a l => simp at huniq
      subst hrest
      have hmem : u ∈ db.filter (tokenMatch tid token) := by
        rw [hfil]
        exact List.mem_cons_self u []
      have hres : resolveUser checkpw db tid username password token =
          some (some u) := by
        simp [resolveUser, htok, hfil, oneOrNone]
      have hout : (login checkpw db tc now fla tid username password
          client_using_tor client_ip token).outcome =
          .success u.id u.state u.role u.password_change_needed := by
        simp [login, hres, htor, hip]
      rw [hout]
      simp only [LoginOutcome.isSuccess]
      constructor
      · intro _
        exact ⟨u, (List.mem_filter.mp hmem).1, (List.mem_filter.mp hmem).2⟩
      · intro _
        trivial
  · have hfilnil : (db.filter (userMatch tid username)).filter
        (fun u => checkpw password u.salt u.password) = [] :=
      List.filter_eq_nil_iff.mpr (fun u hu => by simp [hall u hu])
    have hres : resolveUser checkpw db tid username password "" = some none := by
      simp [resolveUser, loopPickC_eq, hfilnil]
    simp [login, hres]

/-- Witness for C4 on a one-user table: the token login ignores the supplied
password, succeeds exactly when the token matches, and a username login whose
password verifies nowhere fails with InvalidAuthentication. -/
theorem staff_login_candidate_resolution_witness :
    (login (fun _ _ _ => false) [uTok] tcAllOff 0 0 4 "bob" "p1" true 0 "T" =
      login (fun _ _ _ => false) [uTok] tcAllOff 0 0 4 "bob" "p2" true 0 "T") ∧
    ((login (fun _ _ _ => false) [uTok] tcAllOff 0 0 4 "bob" "p1" true 0
        "T").outcome.isSuccess = true ↔
      ∃ u ∈ [uTok], tokenMatch 4 "T" u = true) ∧
    (login (fun _ _ _ => false) [uTok] tcAllOff 0 0 4 "bob" "p1" true 0
        "").outcome = .failure .InvalidAuthentication := by
  have h := staff_login_candidate_resolution (fun _ _ _ => false) [uTok]
    tcAllOff 0 0 4 "bob" true 0
  exact ⟨h.1 "T" "p1" "p2" (by decide),
    h.2.1 "T" "p1" (by decide) (by decide) rfl rfl,
    h.2.2 "p1" (fun u _ => rfl)⟩

/-- Helper: without a token the staff login makes exactly one verifier call
per candidate, whatever branch the outcome takes. -/
theorem login_checkpwCalls (checkpw : String → String → String → Bool)
    (db : List User) (tc : TenantCache) (now fla tid : Nat)
    (username password : String) (client_using_tor : Bool) (client_ip : Nat) :
    (login checkpw db tc now fla tid username password client_using_tor
        client_ip "").checkpwCalls =
      (db.filter (userMatch tid username)).length := by
  rcases hres : resolveUser checkpw db tid username password ""
    with _ | (_ | user)
  · simp [login, hres, loopPickC_eq]
  · simp [login, hres, loopPickC_eq]
  · simp only [login, hres, loopPickC_eq]
    split
    · simp [loopPickC_eq]
    · split
      · simp [loopPickC_eq]
      · simp [loopPickC_eq]

/-- C5 counterexample: with an empty user table (no candidate for the
username) the staff login fails with InvalidAuthentication after zero
verifier invocations, not after the single dummy invocation the claim
requires. -/
theorem no_candidate_verifier_counterexample :
    (login (fun _ _ _ => false) [] tcAllOff 0 0 7 "alice" "pw" true 0
        "").checkpwCalls = 0 ∧
    (login (fun _ _ _ => false) [] tcAllOff 0 0 7 "alice" "pw" true 0
        "").outcome = .failure .InvalidAuthentication ∧
    (0 : Nat) ≠ 1 := by
  exact ⟨rfl, rfl, by decide⟩

/-- C5 (amended): the staff login invokes the password verifier exactly once
per candidate; in particular when no candidate exists it performs no verifier
call at all (rather than one dummy call) and fails with
InvalidAuthentication. -/
theorem verifier_calls_eq_candidates
    (checkpw : String → String → String → Bool) (db : List User)
    (tc : TenantCache) (now fla tid : Nat) (username password : String)
    (client_using_tor : Bool) (client_ip : Nat) :
    (login checkpw db tc now fla tid username password client_using_tor
        client_ip "").checkpwCalls =
      (db.filter (userMatch tid username)).length ∧
    (db.filter (userMatch tid username) = [] →
      (login checkpw db tc now fla tid username password client_using_tor
          client_ip "").checkpwCalls = 0 ∧
      (login checkpw db tc now fla tid username password client_using_tor
          client_ip "").outcome = .failure .InvalidAuthentication) := by
  have hcalls := login_checkpwCalls checkpw db tc now fla tid username password
    client_using_tor client_ip
  refine ⟨hcalls, fun hnil => ⟨?_, ?_⟩⟩
  · rw [hcalls, hnil]
    rfl
  · have hres : resolveUser checkpw db tid username password "" = some none := by
      simp [resolveUser, loopPickC_eq, hnil]
    simp [login, hres]

/-- Witness for the amended C5: one verifier call for the single candidate of
a one-user table; zero calls and InvalidAuthentication on an empty table. -/
theorem verifier_calls_eq_candidates_witness :
    (login (fun _ _ _ => false) [uTok] tcAllOff 0 0 4 "bob" "pw" true 0
        "").checkpwCalls = ([uTok].filter (userMatch 4 "bob")).length ∧
    (login (fun _ _ _ => false) [] tcAllOff 0 0 4 "bob" "pw" true 0
        "").checkpwCalls = 0 ∧
    (login (fun _ _ _ => false) [] tcAllOff 0 0 4 "bob" "pw" true 0
        "").outcome = .failure .InvalidAuthentication := by
  have h1 := verifier_calls_eq_candidates (fun _ _ _ => false) [uTok] tcAllOff
    0 0 4 "bob" "pw" true 0
  have h2 := verifier_calls_eq_candidates (fun _ _ _ => false) [] tcAllOff
    0 0 4 "bob" "pw" true 0
  exact ⟨h1.1, (h2.2 rfl).1, (h2.2 rfl).2⟩

/-- A tenant configuration allowing whistleblower web access, with salt "S". -/
def tcWB : TenantCache := ⟨"S", false, false, false, true, false, []⟩

/-- A submission of tenant 4 whose stored hash is the model hash (append) of
receipt "R1" under salt "S". -/
def tipW : InternalTip := ⟨11, 4, "R1S", 0⟩

/-- C6: the whistleblower login looks a submission up by the receipt hashed
with the tenant's receipt salt, scoped to the tenant: on no match it fails
with InvalidAuthentication leaving the tip table unchanged; on a unique match
with the network policy satisfied it stamps that submission's last-access and
the handler answers with a session of role whistleblower. -/
theorem whistleblower_login_spec (hashpw : String → String → String)
    (rand : Nat → Nat → Nat) (tips : List InternalTip) (tc : TenantCache)
    (now fla tid : Nat) (receipt : String) (client_using_tor : Bool)
    (fresh_id expiration : Nat) :
    (tips.filter (fun t =>
        t.receipt_hash == hashpw receipt tc.receipt_salt && t.tid == tid) = [] →
      (login_whistleblower hashpw tips tc now fla tid receipt
          client_using_tor).outcome = .failure .InvalidAuthentication ∧
      (login_whistleblower hashpw tips tc now fla tid receipt
          client_using_tor).tips = tips) ∧
    (∀ t0, tips.filter (fun t =>
        t.receipt_hash == hashpw receipt tc.receipt_salt && t.tid == tid) = [t0] →
      (client_using_tor = true ∨ tc.https_whistleblower = true) →
      (login_whistleblower hashpw tips tc now fla tid receipt
          client_using_tor).outcome = .success t0.id ∧
      (login_whistleblower hashpw tips tc now fla tid receipt
          client_using_tor).tips =
        tips.map (fun t =>
          if t.id == t0.id then { t with last_access := now } else t) ∧
      (ReceiptAuthHandler_post hashpw rand tips tc now fla tid receipt
          client_using_tor fresh_id expiration).response =
        some ⟨fresh_id, "whistleblower", t0.id, expiration⟩) := by
  constructor
  · intro hnil
    have hres : db_get_wbtip_by_receipt hashpw tips tc tid receipt =
        some none := by
      simp [db_get_wbtip_by_receipt, hnil, oneOrNone]
    exact ⟨by simp [login_whistleblower, hres],
      by simp [login_whistleblower, hres]⟩
  · intro t0 hone hpol
    have hres : db_get_wbtip_by_receipt hashpw tips tc tid receipt =
        some (some t0) := by
      simp [db_get_wbtip_by_receipt, hone, oneOrNone]
    have hcond : (!client_using_tor && !tc.https_whistleblower) = false := by
      rcases hpol with h | h <;> simp [h]
    refine ⟨?_, ?_, ?_⟩
    · simp [login_whistleblower, hres, hcond]
    · simp [login_whistleblower, hres, hcond]
    · simp [ReceiptAuthHandler_post, login_whistleblower, hres, hcond,
        new_session]

/-- Witness for C6: receipt "R1" hashed (model hash: append) under salt "S"
matches the stored record and yields a whistleblower session with a stamped
last-access, while receipt "R2" fails with InvalidAuthentication. -/
theorem whistleblower_login_spec_witness :
    (login_whistleblower (fun r s => r ++ s) [tipW] tcWB 99 0 4 "R2"
        false).outcome = .failure .InvalidAuthentication ∧
    (login_whistleblower (fun r s => r ++ s) [tipW] tcWB 99 0 4 "R1"
        false).outcome = .success 11 ∧
    (login_whistleblower (fun r s => r ++ s) [tipW] tcWB 99 0 4 "R1"
        false).tips = [⟨11, 4, "R1S", 99⟩] ∧
    (ReceiptAuthHandler_post (fun r s => r ++ s) (fun a _ => a) [tipW] tcWB 99
        0 4 "R1" false 77 1000).response =
      some ⟨77, "whistleblower", 11, 1000⟩ := by
  have h1 := whistleblower_login_spec (fun r s => r ++ s) (fun a _ => a)
    [tipW] tcWB 99 0 4 "R2" false 77 1000
  have h2 := whistleblower_login_spec (fun r s => r ++ s) (fun a _ => a)
    [tipW] tcWB 99 0 4 "R1" false 77 1000
  refine ⟨(h1.1 (by decide)).1, (h2.2 tipW (by decide) (Or.inr rfl)).1,
    ?_, (h2.2 tipW (by decide) (Or.inr rfl)).2.2⟩
  have := (h2.2 tipW (by decide) (Or.inr rfl)).2.1
  rw [this]
  rfl

/-- C7: with authenticated-IP filtering enabled and the credentials resolved,
a loopback client passes the allow-list check even when no configured range
contains it; a non-loopback client contained in no range is denied with
AccessLocationInvalid; a client inside at least one range is allowed. -/
theorem ip_filter_spec (checkpw : String → String → String → Bool)
    (db : List User) (tc : TenantCache) (now fla tid : Nat)
    (username password token : String) (client_ip : Nat) (u : User)
    (hres : resolveUser checkpw db tid username password token = some (some u))
    (hen : tc.ip_filter_authenticated_enable = true) :
    (is_loopback client_ip = true →
      (login checkpw db tc now fla tid username password true client_ip
          token).outcome =
        .success u.id u.state u.role u.password_change_needed) ∧
    (is_loopback client_ip = false →
      (∀ nw ∈ tc.ip_filter_authenticated, ipInNetwork client_ip nw = false) →
      (login checkpw db tc now fla tid username password true client_ip
          token).outcome = .failure .AccessLocationInvalid) ∧
    ((∃ nw ∈ tc.ip_filter_authenticated, ipInNetwork client_ip nw = true) →
      (login checkpw db tc now fla tid username password true client_ip
          token).outcome =
        .success u.id u.state u.role u.password_change_needed) := by
  refine ⟨fun hloop => ?_, fun hloop hnone => ?_, fun hex => ?_⟩
  · have hpass : ipFilterPass tc.ip_filter_authenticated client_ip = true := by
      rw [ipFilterPass_iff, hloop]
      simp
    simp [login, hres, hpass]
  · have hpass : ipFilterPass tc.ip_filter_authenticated client_ip = false := by
      rw [ipFilterPass_iff, hloop]
      simp only [Bool.false_or]
      rw [List.any_eq_false]
      intro nw hnw
      simp [hnone nw hnw]
    simp [login, hres, hen, hpass]
  · have hpass : ipFilterPass tc.ip_filter_authenticated client_ip = true := by
      rw [ipFilterPass_iff]
      obtain ⟨nw, hnw, hin⟩ := hex
      have hany : tc.ip_filter_authenticated.any
          (fun nw => ipInNetwork client_ip nw) = true :=
        List.any_eq_true.mpr ⟨nw, hnw, hin⟩
      rw [hany]
      simp
    simp [login, hres, hpass]

/-- The network range 10.0.0.0/24. -/
def nw10 : IPNetwork := ⟨167772160, 24⟩

/-- A tenant with authenticated-IP filtering enabled on allow-list
[10.0.0.0/24]. -/
def tcIP : TenantCache := ⟨"S", true, true, true, true, true, [nw10]⟩

/-- An enabled receiver of tenant 4. -/
def uRecv : User := ⟨5, 4, "carol", "H", "SALT", "receiver", "enabled", "", false, 0⟩

/-- Witness for C7: 127.0.0.1 passes although outside the allow-list,
192.168.1.1 is denied with AccessLocationInvalid, 10.0.0.5 passes. -/
theorem ip_filter_spec_witness :
    (login (fun _ _ _ => true) [uRecv] tcIP 0 0 4 "carol" "pw" true 2130706433
        "").outcome = .success 5 "enabled" "receiver" false ∧
    (login (fun _ _ _ => true) [uRecv] tcIP 0 0 4 "carol" "pw" true 3232235777
        "").outcome = .failure .AccessLocationInvalid ∧
    (login (fun _ _ _ => true) [uRecv] tcIP 0 0 4 "carol" "pw" true 167772165
        "").outcome = .success 5 "enabled" "receiver" false := by
  have h1 := ip_filter_spec (fun _ _ _ => true) [uRecv] tcIP 0 0 4 "carol"
    "pw" "" 2130706433 uRecv (by decide) rfl
  have h2 := ip_filter_spec (fun _ _ _ => true) [uRecv] tcIP 0 0 4 "carol"
    "pw" "" 3232235777 uRecv (by decide) rfl
  have h3 := ip_filter_spec (fun _ _ _ => true) [uRecv] tcIP 0 0 4 "carol"
    "pw" "" 167772165 uRecv (by decide) rfl
  exact ⟨h1.1 (by decide), h2.2.1 (by decide) (by decide),
    h3.2.2 ⟨nw10, by decide, by decide⟩⟩

/-- A second enabled receiver of tenant 4 with the same username as uRecv. -/
def uRecvB : User := ⟨6, 4, "carol", "H", "SALT", "receiver", "enabled", "", false, 0⟩

/-- C9 counterexample: with two candidates whose passwords both verify, the
staff login authenticates the second (last) candidate, not the first, and
invokes the verifier twice instead of stopping after the first match. -/
theorem first_match_counterexample :
    (login (fun _ _ _ => true) [uRecv, uRecvB] tcAllOff 0 0 4 "carol" "pw"
        true 0 "").outcome = .success 6 "enabled" "receiver" false ∧
    (login (fun _ _ _ => true) [uRecv, uRecvB] tcAllOff 0 0 4 "carol" "pw"
        true 0 "").outcome ≠ .success 5 "enabled" "receiver" false ∧
    (login (fun _ _ _ => true) [uRecv, uRecvB] tcAllOff 0 0 4 "carol" "pw"
        true 0 "").checkpwCalls = 2 := by
  exact ⟨rfl, by decide, rfl⟩

/-- C9 (amended): the staff login verifies the password against every
candidate, one verifier call per candidate with no early exit, and the last
candidate whose password verifies becomes the resolved principal. -/
theorem verify_all_last_match (checkpw : String → String → String → Bool)
    (db : List User) (tc : TenantCache) (now fla tid : Nat)
    (username password : String) (client_using_tor : Bool) (client_ip : Nat) :
    resolveUser checkpw db tid username password "" =
      some (((db.filter (userMatch tid username)).filter
        (fun u => checkpw password u.salt u.password)).getLast?) ∧
    (login checkpw db tc now fla tid username password client_using_tor
        client_ip "").checkpwCalls =
      (db.filter (userMatch tid username)).length := by
  exact ⟨by simp [resolveUser, loopPickC_eq],
    login_checkpwCalls checkpw db tc now fla tid username password
      client_using_tor client_ip⟩

/-- Helper: a staff login whose outcome is not InvalidAuthentication leaves
the failure counter untouched. -/
theorem login_counter_unchanged (checkpw : String → String → String → Bool)
    (db : List User) (tc : TenantCache) (now fla tid : Nat)
    (username password : String) (client_using_tor : Bool) (client_ip : Nat)
    (token : String)
    (h : (login checkpw db tc now fla tid username password client_using_tor
      client_ip token).outcome ≠ .failure .InvalidAuthentication) :
    (login checkpw db tc now fla tid username password client_using_tor
      client_ip token).failed_login_attempts = fla := by
  rcases hres : resolveUser checkpw db tid username password token
    with _ | (_ | user)
  · simp [login, hres]
  · simp [login, hres] at h
  · simp only [login, hres]
    split
    · simp
    · split
      · simp
      · simp

/-- Helper: a whistleblower login whose outcome is not InvalidAuthentication
leaves the failure counter untouched. -/
theorem login_wb_counter_unchanged (hashpw : String → String → String)
    (tips : List InternalTip) (tc : TenantCache) (now fla tid : Nat)
    (receipt : String) (client_using_tor : Bool)
    (h : (login_whistleblower hashpw tips tc now fla tid receipt
      client_using_tor).outcome ≠ .failure .InvalidAuthentication) :
    (login_whistleblower hashpw tips tc now fla tid receipt
      client_using_tor).failed_login_attempts = fla := by
  rcases hres : db_get_wbtip_by_receipt hashpw tips tc tid receipt
    with _ | (_ | wbtip)
  · simp [login_whistleblower, hres]
  · simp [login_whistleblower, hres] at h
  · simp only [login_whistleblower, hres]
    split
    · simp
    · simp

/-- C8: both handlers compute the throttle delay from the failure counter as
it stands when the request arrives — independently of the request's
credentials, user table and outcome — a bounded draw makes that delay at
least 5 whenever the prior counter is at least 5 (so an ultimately successful
login still sleeps it), and a successful request leaves the counter, hence
later requests' delays, unchanged. -/
theorem delay_before_login_spec
    (checkpw checkpw2 : String → String → String → Bool)
    (hashpw : String → String → String) (rand : Nat → Nat → Nat)
    (db db2 : List User) (tips : List InternalTip) (tc : TenantCache)
    (now fla tid : Nat)
    (username username2 password password2 token token2 receipt : String)
    (client_using_tor : Bool) (client_ip : Nat) (fresh_id expiration : Nat) :
    (AuthenticationHandler_post checkpw rand db tc now fla tid username
        password token client_using_tor client_ip fresh_id expiration).delay =
      random_login_delay rand fla ∧
    (AuthenticationHandler_post checkpw rand db tc now fla tid username
        password token client_using_tor client_ip fresh_id expiration).delay =
      (AuthenticationHandler_post checkpw2 rand db2 tc now fla tid username2
        password2 token2 client_using_tor client_ip fresh_id
        expiration).delay ∧
    (ReceiptAuthHandler_post hashpw rand tips tc now fla tid receipt
        client_using_tor fresh_id expiration).delay =
      random_login_delay rand fla ∧
    ((∀ a b, a ≤ b → a ≤ rand a b) → 5 ≤ fla →
      5 ≤ random_login_delay rand fla) ∧
    (∀ r, (AuthenticationHandler_post checkpw rand db tc now fla tid username
        password token client_using_tor client_ip fresh_id
        expiration).response = some r →
      (AuthenticationHandler_post checkpw rand db tc now fla tid username
        password token client_using_tor client_ip fresh_id
        expiration).failed_login_attempts = fla) ∧
    (∀ r, (ReceiptAuthHandler_post hashpw rand tips tc now fla tid receipt
        client_using_tor fresh_id expiration).response = some r →
      (ReceiptAuthHandler_post hashpw rand tips tc now fla tid receipt
        client_using_tor fresh_id expiration).failed_login_attempts = fla) := by
  have hdelay : ∀ (cp : String → String → String → Bool) (d : List User)
      (un pw tk : String),
      (AuthenticationHandler_post cp rand d tc now fla tid un pw tk
        client_using_tor client_ip fresh_id expiration).delay =
        random_login_delay rand fla := by
    intro cp d un pw tk
    cases hout : (login cp d tc now fla tid un pw client_using_tor client_ip
        tk).outcome with
    | success uid st role pcn => simp [AuthenticationHandler_post, hout]
    | failure e => simp [AuthenticationHandler_post, hout]
    | dbError => simp [AuthenticationHandler_post, hout]
  have hwbdelay : (ReceiptAuthHandler_post hashpw rand tips tc now fla tid
      receipt client_using_tor fresh_id expiration).delay =
      random_login_delay rand fla := by
    cases hout : (login_whistleblower hashpw tips tc now fla tid receipt
        client_using_tor).outcome with
    | success uid => simp [ReceiptAuthHandler_post, hout]
    | failure e => simp [ReceiptAuthHandler_post, hout]
    | dbError => simp [ReceiptAuthHandler_post, hout]
  refine ⟨hdelay checkpw db username password token, ?_, hwbdelay,
    fun hr h5 => ?_, fun r hr => ?_, fun r hr => ?_⟩
  · rw [hdelay checkpw db username password token,
      hdelay checkpw2 db2 username2 password2 token2]
  · rw [random_login_delay_eq, if_pos h5]
    have hxx : fla ≤ fla * fla := Nat.le_mul_of_pos_left fla (by omega)
    have ha : 5 ≤ (if fla < 42 then fla else 42) := by split <;> omega
    have hab : (if fla < 42 then fla else 42) ≤
        (if fla * fla < 42 then fla * fla else 42) := by
      split <;> split <;> omega
    exact le_trans ha (hr _ _ hab)
  · cases hout : (login checkpw db tc now fla tid username password
        client_using_tor client_ip token).outcome with
    | success uid st role pcn =>
      have hcnt := login_counter_unchanged checkpw db tc now fla tid username
        password client_using_tor client_ip token (by rw [hout]; simp)
      simp [AuthenticationHandler_post, hout, hcnt]
    | failure e => simp [AuthenticationHandler_post, hout] at hr
    | dbError => simp [AuthenticationHandler_post, hout] at hr
  · cases hout : (login_whistleblower hashpw tips tc now fla tid receipt
        client_using_tor).outcome with
    | success uid =>
      have hcnt := login_wb_counter_unchanged hashpw tips tc now fla tid
        receipt client_using_tor (by rw [hout]; simp)
      simp [ReceiptAuthHandler_post, hout, hcnt]
    | failure e => simp [ReceiptAuthHandler_post, hout] at hr
    | dbError => simp [ReceiptAuthHandler_post, hout] at hr

/-- Witness for C8: with seven prior failures, a successful staff login still
computes the full delay from the prior counter (at least 5 with a bounded
draw) and leaves the counter at 7. -/
theorem delay_before_login_spec_witness :
    (AuthenticationHandler_post (fun _ _ _ => true) (fun a _ => a) [uRecv]
        tcAllOff 0 7 4 "carol" "pw" "" true 0 77 1000).delay =
      random_login_delay (fun a _ => a) 7 ∧
    5 ≤ random_login_delay (fun a _ => a) 7 ∧
    (AuthenticationHandler_post (fun _ _ _ => true) (fun a _ => a) [uRecv]
        tcAllOff 0 7 4 "carol" "pw" "" true 0 77 1000).failed_login_attempts =
      7 ∧
    (ReceiptAuthHandler_post (fun r s => r ++ s) (fun a _ => a) [tipW]
        tcAllOff 0 7 4 "R1" true 77 1000).failed_login_attempts = 7 := by
  have h := delay_before_login_spec (fun _ _ _ => true) (fun _ _ _ => false)
    (fun r s => r ++ s) (fun a _ => a) [uRecv] [] [tipW] tcAllOff 0 7 4
    "carol" "x" "pw" "y" "" "z" "R1" true 0 77 1000
  refine ⟨h.1, h.2.2.2.1 (fun a b hab => Nat.le_refl a) (by omega), ?_, ?_⟩
  · exact h.2.2.2.2.1 ⟨77, "receiver", 5, 1000, "enabled", false⟩ (by decide)
  · exact h.2.2.2.2.2 ⟨77, "whistleblower", 11, 1000⟩ (by decide)

/-- Helper: a successful staff login outcome carries exactly the fields of
the resolved principal. -/
theorem login_success_from_resolve (checkpw : String → String → String → Bool)
    (db : List User) (tc : TenantCache) (now fla tid : Nat)
    (username password : String) (client_using_tor : Bool) (client_ip : Nat)
    (token : String) (uid : Nat) (st role : String) (pcn : Bool)
    (h : (login checkpw db tc now fla tid username password client_using_tor
      client_ip token).outcome = .success uid st role pcn) :
    ∃ u, resolveUser checkpw db tid username password token = some (some u) ∧
      uid = u.id ∧ st = u.state ∧ role = u.role ∧
      pcn = u.password_change_needed := by
  rcases hres : resolveUser checkpw db tid username password token
    with _ | (_ | user)
  · simp [login, hres] at h
  · simp [login, hres] at h
  · refine ⟨user, rfl, ?_⟩
    simp only [login, hres] at h
    split at h
    · simp at h
    · split at h
      · simp at h
      · simp only [LoginOutcome.success.injEq] at h
        exact ⟨h.1.symm, h.2.1.symm, h.2.2.1.symm, h.2.2.2.symm⟩

/-- C10: the session-refresh response reports password_change_needed as false
for every session, regardless of the principal's stored flag, whereas a
successful login response reports the resolved principal's actual flag. -/
theorem session_refresh_pcn_false (s : Session)
    (checkpw : String → String → String → Bool) (rand : Nat → Nat → Nat)
    (db : List User) (tc : TenantCache) (now fla tid : Nat)
    (username password token : String) (client_using_tor : Bool)
    (client_ip : Nat) (fresh_id expiration : Nat) :
    (SessionHandler_get s).password_change_needed = false ∧
    (∀ r, (AuthenticationHandler_post checkpw rand db tc now fla tid username
        password token client_using_tor client_ip fresh_id
        expiration).response = some r →
      ∃ u, resolveUser checkpw db tid username password token =
          some (some u) ∧
        r.password_change_needed = u.password_change_needed) := by
  refine ⟨rfl, fun r hr => ?_⟩
  cases hout : (login checkpw db tc now fla tid username password
      client_using_tor client_ip token).outcome with
  | success uid st role pcn =>
    obtain ⟨u, hres, _, _, _, hpcn⟩ := login_success_from_resolve checkpw db
      tc now fla tid username password client_using_tor client_ip token uid st
      role pcn hout
    refine ⟨u, hres, ?_⟩
    simp [AuthenticationHandler_post, hout] at hr
    rw [← hr]
    exact hpcn
  | failure e => simp [AuthenticationHandler_post, hout] at hr
  | dbError => simp [AuthenticationHandler_post, hout] at hr

/-- An enabled receiver of tenant 4 whose password-change-needed flag is set. -/
def uPcn : User := ⟨8, 4, "dave", "H", "SALT", "receiver", "enabled", "", true, 0⟩

/-- A stored session of tenant 4. -/
def sessW : Session := ⟨42, 4, 5, "receiver", "enabled", 1000⟩

/-- Witness for C10: the refresh response of a stored session carries false
while the login response for a user with the flag set carries that flag. -/
theorem session_refresh_pcn_false_witness :
    (SessionHandler_get sessW).password_change_needed = false ∧
    ∃ u, resolveUser (fun _ _ _ => true) [uPcn] 4 "dave" "pw" "" =
        some (some u) ∧
      (⟨77, "receiver", 8, 1000, "enabled", true⟩ :
        AuthResponse).password_change_needed = u.password_change_needed := by
  have h := session_refresh_pcn_false sessW (fun _ _ _ => true) (fun a _ => a)
    [uPcn] tcAllOff 0 0 4 "dave" "pw" "" true 0 77 1000
  exact ⟨h.1, h.2 ⟨77, "receiver", 8, 1000, "enabled", true⟩ (by decide)⟩
